import Mathlib

/-!
# Verification of the `tundra` data-access library

A shallow embedding of the `tundra` Python package (modules `config.py`,
`connector.py`, `sharepoint.py`, `exceptions.py`) together with proofs of
the behavioural contracts stated in its design specification.

External collaborators — the Snowflake driver, the SharePoint SDK, the
filesystem and pandas — are modelled as explicit parameters (outcome
values or outcome functions), so every embedded operation is a pure,
executable Lean function of the code's inputs plus the collaborators'
behaviour. Python exception propagation is modelled with `Except`:
`try/except` blocks of the source become explicit `match`es on the inner
result, and `raise X(... str(e) ...)` becomes construction of the
corresponding `PyExc` value carrying the formatted message.
-/

set_option autoImplicit false

namespace Tundra

/-- Python exception values distinguished by the `tundra` code base:
the two domain errors from `exceptions.py`, Python's builtin `ValueError`,
and an opaque stand-in for any exception raised by an external SDK,
driver, filesystem or pandas call (`externalError` carries `str(e)`). -/
inductive PyExc where
  | configurationError (msg : String)
  | connectionError (msg : String)
  | valueError (msg : String)
  | externalError (msg : String)
  deriving DecidableEq, Repr

/-- `str(e)` of an exception: the message it carries. -/
def PyExc.msgOf : PyExc → String
  | .configurationError m => m
  | .connectionError m => m
  | .valueError m => m
  | .externalError m => m

/-- Whether an `Except` result is a success (no exception escaped). -/
def exceptIsOk {ε α : Type} : Except ε α → Bool
  | .ok _ => true
  | .error _ => false

instance {ε α : Type} [DecidableEq ε] [DecidableEq α] : DecidableEq (Except ε α) :=
  fun x y =>
    match x, y with
    | .ok a, .ok b =>
        if h : a = b then .isTrue (by rw [h]) else .isFalse (by simp [h])
    | .error a, .error b =>
        if h : a = b then .isTrue (by rw [h]) else .isFalse (by simp [h])
    | .ok _, .error _ => .isFalse (by simp)
    | .error _, .ok _ => .isFalse (by simp)

/-- Whether a result is a raised `ConfigurationError`. -/
def isConfigurationErrorResult {α : Type} : Except PyExc α → Bool
  | .error (.configurationError _) => true
  | _ => false

/-- Whether a result is a raised `ConnectionError`. -/
def isConnectionErrorResult {α : Type} : Except PyExc α → Bool
  | .error (.connectionError _) => true
  | _ => false

/-- Whether a result is a raised `ValueError`. -/
def isValueErrorResult {α : Type} : Except PyExc α → Bool
  | .error (.valueError _) => true
  | _ => false

/-- The tabular result type (`pd.DataFrame` as used by this library):
ordered column names and ordered rows of string-rendered cell values. -/
structure DataFrame where
  columns : List String
  rows : List (List String)
  deriving DecidableEq, Repr

/-- `pd.DataFrame()`: the empty tabular result. -/
def emptyDataFrame : DataFrame := { columns := [], rows := [] }

/-! ## `connector.py` — `SnowflakeConnector`

State: `self.conn`, an optional driver handle (`None` initially).
The driver call `snowflake.connector.connect(**self.config)` is modelled
by a parameter `drv : Except String Nat`: with a fixed config the driver
either yields a handle or raises with some message.  The filesystem seen
by `Path(...).is_file()` / `open` is an association list from path string
to file contents, and the query backend (cursor execute + fetchall +
description) is a function from SQL text to either a `DataFrame` or an
error message. -/

/-- `self.conn` of a `SnowflakeConnector`. -/
structure SnowflakeState where
  conn : Option Nat
  deriving DecidableEq, Repr

/-- The filesystem: paths mapped to file contents. -/
def FS := List (String × String)

/-- A deterministic query backend: SQL text to result table or driver error. -/
def Backend := String → Except String DataFrame

/-- The argument of `execute_query`: a Python `str` or a `pathlib.Path`. -/
inductive QueryArg where
  | str (s : String)
  | path (p : String)
  deriving DecidableEq, Repr

namespace SnowflakeConnector

/-- `SnowflakeConnector.connect`:
`self.conn = snowflake.connector.connect(**self.config)` inside
`try/except`, re-raising any driver error as
`ConnectionError(f"Failed to connect to Snowflake: {str(e)}")`.
If the driver raises, the assignment never happens, so `self.conn`
is left untouched. -/
def connect (drv : Except String Nat) (s : SnowflakeState) :
    Except PyExc Unit × SnowflakeState :=
  match drv with
  | .ok h => (.ok (), { conn := some h })
  | .error e =>
      (.error (.connectionError ("Failed to connect to Snowflake: " ++ e)), s)

/-- `SnowflakeConnector.disconnect`:
`if self.conn: self.conn.close(); self.conn = None`. -/
def disconnect (s : SnowflakeState) : SnowflakeState :=
  match s.conn with
  | some _ => { conn := none }
  | none => s

/-- The query-input policy of `execute_query` (its first `try`-block step):
a `Path` argument is always opened and read (raising if the file does not
exist); a `str` argument is read as a file when `Path(query).is_file()`,
and otherwise used verbatim as SQL text. -/
def resolveQuery (fs : FS) (q : QueryArg) : Except PyExc String :=
  match q with
  | .path p =>
      match fs.lookup p with
      | some contents => .ok contents
      | none => .error (.externalError ("No such file or directory: " ++ p))
  | .str s =>
      match fs.lookup s with
      | some contents => .ok contents
      | none => .ok s

/-- Running the cursor on resolved SQL text: `cursor.execute` /
`fetchall` / `description`, with any backend error re-raised by the
surrounding `except` as `ConnectionError(f"Error executing query: ...")`. -/
def runBackend (backend : Backend) (sql : String) : Except PyExc DataFrame :=
  match backend sql with
  | .ok df => .ok df
  | .error e => .error (.connectionError ("Error executing query: " ++ e))

/-- `SnowflakeConnector.execute_query`: implicit connect when
`self.conn` is falsy (this guard sits before the `try`, so a failing
implicit connect raises `connect`'s own `ConnectionError`); then the
`try` block resolves the query argument to SQL text and runs the cursor,
re-raising any failure (file read included) as
`ConnectionError(f"Error executing query: {str(e)}")`. -/
def execute_query (drv : Except String Nat) (fs : FS) (backend : Backend)
    (q : QueryArg) (s : SnowflakeState) :
    Except PyExc DataFrame × SnowflakeState :=
  let run (s' : SnowflakeState) : Except PyExc DataFrame × SnowflakeState :=
    match resolveQuery fs q with
    | .ok sql => (runBackend backend sql, s')
    | .error e =>
        (.error (.connectionError ("Error executing query: " ++ e.msgOf)), s')
  match s.conn with
  | some _ => run s
  | none =>
      match connect drv s with
      | (.ok _, s') => run s'
      | (.error e, s') => (.error e, s')

/-- The `with SnowflakeConnector(...) as c:` pattern around an arbitrary
body `op`: `__enter__` calls `connect` (if it raises, the body and
`__exit__` never run); otherwise the body runs and `__exit__` calls
`disconnect` unconditionally, whether or not the body raised. -/
def withConnector {α : Type} (drv : Except String Nat)
    (op : SnowflakeState → Except PyExc α × SnowflakeState)
    (s : SnowflakeState) : Except PyExc α × SnowflakeState :=
  match connect drv s with
  | (.error e, s') => (.error e, s')
  | (.ok _, s') =>
      let (r, s'') := op s'
      (r, disconnect s'')

end SnowflakeConnector

/-! ## `sharepoint.py` — `SharePointConnector`

State: `self.ctx`, an optional SharePoint client session handle.
Configuration values are read with `dict.get`, so an absent key yields
Python `None`; the `all([...])` guard treats both `None` and the empty
string as missing.  The authentication dance
(`AuthenticationContext` / `acquire_token_for_user` / `ClientContext` /
load + execute) is modelled by a parameter `SPAuth` enumerating its
observable outcomes. -/

/-- The settings group handed to `SharePointConnector`: each value is
`config.get(key)`, hence `Option String` (`none` when the key is absent). -/
structure SPConfig where
  site_url : Option String
  username : Option String
  password : Option String
  deriving DecidableEq, Repr

/-- Python truthiness of a `config.get` result: `None` and `""` are falsy. -/
def truthy : Option String → Bool
  | none => false
  | some s => s ≠ ""

/-- `self.ctx` of a `SharePointConnector`. -/
structure SPState where
  ctx : Option Nat
  deriving DecidableEq, Repr

/-- Python's `str.lower()` (on the ASCII range used by format
selectors), defined by structural recursion over the character list so
that concrete calls evaluate. -/
def strLower (s : String) : String :=
  ⟨s.data.map Char.toLower⟩

/-- Outcome of the SharePoint authentication sequence in `connect`:
`ok h` — token acquired and the `ClientContext` loads fine (handle `h`);
`okButLoadFails h e` — token acquired and `self.ctx` assigned, but the
subsequent `load`/`execute_query` raises with message `e`;
`authFailed d` — `acquire_token_for_user` returns falsy, with
`get_last_error()` equal to `d`; `exc e` — the SDK itself raises. -/
inductive SPAuth where
  | ok (h : Nat)
  | okButLoadFails (h : Nat) (e : String)
  | authFailed (detail : String)
  | exc (e : String)
  deriving DecidableEq, Repr

/-- One field descriptor of a SharePoint list: the `Title` and
`InternalName` entries of `field.properties`. -/
structure SPField where
  Title : String
  InternalName : String
  deriving DecidableEq, Repr

namespace SharePointConnector

/-- `SharePointConnector.connect`.  Inside its `try`: the three settings
are fetched with `config.get`; if any is falsy a
`ConfigurationError("Missing required SharePoint configuration")` is
raised; otherwise the token is acquired and the client session opened,
with a falsy token yielding
`ConnectionError(f"SharePoint authentication failed: {detail}")`.
The enclosing `except Exception as e` catches EVERY exception raised in
the `try` — the `ConfigurationError` and the inner `ConnectionError`
included — and re-raises it as
`ConnectionError(f"Failed to connect to SharePoint: {str(e)}")`.
`self.ctx` is assigned before the load/execute round-trip, so that
particular failure leaves the handle set. -/
def connect (cfg : SPConfig) (auth : SPAuth) (s : SPState) :
    Except PyExc Unit × SPState :=
  let inner : Except PyExc Unit × SPState :=
    if truthy cfg.site_url && truthy cfg.username && truthy cfg.password then
      match auth with
      | .ok h => (.ok (), { ctx := some h })
      | .okButLoadFails h e => (.error (.externalError e), { ctx := some h })
      | .authFailed d =>
          (.error (.connectionError ("SharePoint authentication failed: " ++ d)), s)
      | .exc e => (.error (.externalError e), s)
    else
      (.error (.configurationError "Missing required SharePoint configuration"), s)
  match inner with
  | (.ok _, s') => (.ok (), s')
  | (.error e, s') =>
      (.error (.connectionError ("Failed to connect to SharePoint: " ++ e.msgOf)), s')

/-- `SharePointConnector.disconnect`: `if self.ctx: self.ctx = None`. -/
def disconnect (s : SPState) : SPState :=
  match s.ctx with
  | some _ => { ctx := none }
  | none => s

/-- The `if not self.ctx: self.connect()` guard at the top of every
operation.  It sits before each operation's `try`, so a failure of the
implicit connect propagates as `connect`'s own exception. -/
def ensureConnected (cfg : SPConfig) (auth : SPAuth) (s : SPState) :
    Except PyExc Unit × SPState :=
  match s.ctx with
  | some _ => (.ok (), s)
  | none => connect cfg auth s

/-- `pd.DataFrame(data)` for a list of item property mappings: columns
are the property names in order of first appearance; each row renders
every column, with pandas' `NaN` standing in for an absent property. -/
def dfFromRecords (recs : List (List (String × String))) : DataFrame :=
  let cols := recs.foldl
    (fun acc r => acc ++ ((r.map Prod.fst).filter (fun k => ¬ acc.contains k))) []
  { columns := cols,
    rows := recs.map (fun r => cols.map (fun c => (r.lookup c).getD "NaN")) }

/-- `df.empty`: true when the frame has no rows or no columns. -/
def dfEmpty (df : DataFrame) : Bool :=
  df.rows.isEmpty || df.columns.isEmpty

/-- `df[fields]`: column projection, raising a `KeyError` when some
requested field is not a column of the frame. -/
def dfProject (df : DataFrame) (fields : List String) : Except String DataFrame :=
  if fields.all (fun f => df.columns.contains f) then
    .ok { columns := fields,
          rows := df.rows.map (fun row =>
            fields.map (fun f => ((df.columns.zip row).lookup f).getD "NaN")) }
  else
    .error "KeyError: field not in index"

/-- `SharePointConnector.get_list_items`.  After the implicit-connect
guard, the `try` block fetches every item of the list (`items` is the
combined outcome of `get_by_title`/`get_items`/`execute_query`), builds
a `DataFrame` from the property mappings and, when `fields` is truthy
and the frame non-empty, projects to those columns.  The `except` block
catches ANY failure — retrieval and projection alike — prints a
diagnostic and returns `pd.DataFrame()`, the empty frame. -/
def get_list_items (cfg : SPConfig) (auth : SPAuth)
    (items : Except String (List (List (String × String))))
    (fields : Option (List String)) (s : SPState) :
    Except PyExc DataFrame × SPState :=
  match ensureConnected cfg auth s with
  | (.error e, s') => (.error e, s')
  | (.ok _, s') =>
      let attempt : Except String DataFrame :=
        match items with
        | .error e => .error e
        | .ok recs =>
            let df := dfFromRecords recs
            match fields with
            | some fl =>
                if fl ≠ [] && ¬ dfEmpty df then dfProject df fl else .ok df
            | none => .ok df
      match attempt with
      | .ok df => (.ok df, s')
      | .error _ => (.ok emptyDataFrame, s')

/-- `SharePointConnector.get_list_fields`.  After the implicit-connect
guard, the `try` block loads the list's fields (`flds` is the combined
outcome of `get_by_title`/`load`/`execute_query`) and returns
`[field.properties['Title'] for field in fields if not
field.properties['InternalName'].startswith('_')]`; any failure is
re-raised as `ConnectionError(f"Failed to get SharePoint list fields: ...")`. -/
def get_list_fields (cfg : SPConfig) (auth : SPAuth)
    (flds : Except String (List SPField)) (s : SPState) :
    Except PyExc (List String) × SPState :=
  match ensureConnected cfg auth s with
  | (.error e, s') => (.error e, s')
  | (.ok _, s') =>
      match flds with
      | .ok fs =>
          (.ok ((fs.filter
              (fun f => ¬ f.InternalName.startsWith "_")).map SPField.Title), s')
      | .error e =>
          (.error (.connectionError ("Failed to get SharePoint list fields: " ++ e)), s')

/-- `SharePointConnector.save_dataframe`.  After the implicit-connect
guard, its `try` block: (1) looks the target folder up and loads it
(`folder` is that round-trip's outcome); (2) serializes the frame into a
buffer when `file_type.lower()` is `'csv'` or `'excel'`, and otherwise
raises `ValueError("file_type must be either 'csv' or 'excel'")`;
(3) uploads the buffer (`upload` is that round-trip's outcome).  The
enclosing `except Exception` catches every one of these — the
`ValueError` included — and re-raises
`ConnectionError(f"Failed to save DataFrame to SharePoint: {str(e)}")`. -/
def save_dataframe (cfg : SPConfig) (auth : SPAuth)
    (folder : Except String Unit) (upload : Except String Unit)
    (file_type : String) (s : SPState) : Except PyExc Unit × SPState :=
  match ensureConnected cfg auth s with
  | (.error e, s') => (.error e, s')
  | (.ok _, s') =>
      let attempt : Except PyExc Unit :=
        match folder with
        | .error e => .error (.externalError e)
        | .ok _ =>
            if strLower file_type = "csv" || strLower file_type = "excel" then
              match upload with
              | .ok _ => .ok ()
              | .error e => .error (.externalError e)
            else
              .error (.valueError "file_type must be either 'csv' or 'excel'")
      match attempt with
      | .ok _ => (.ok (), s')
      | .error e =>
          (.error (.connectionError
            ("Failed to save DataFrame to SharePoint: " ++ e.msgOf)), s')

/-- The `with SharePointConnector(...) as c:` pattern around a body `op`:
`__enter__` calls `connect` (if it raises, the body and `__exit__` never
run); otherwise the body runs and `__exit__` calls `disconnect`
unconditionally, whether or not the body raised. -/
def withConnector {α : Type} (cfg : SPConfig) (auth : SPAuth)
    (op : SPState → Except PyExc α × SPState)
    (s : SPState) : Except PyExc α × SPState :=
  match connect cfg auth s with
  | (.error e, s') => (.error e, s')
  | (.ok _, s') =>
      let (r, s'') := op s'
      (r, disconnect s'')

end SharePointConnector

/-! ## `config.py` — `ConfigManager`

A parsed settings file (`configparser.ConfigParser` after `read`) is an
association list of sections, each an association list of key/value
pairs.  `ConfigParser.get(section, option)` raises `NoSectionError` /
`NoOptionError` when the section or option is absent; both are plain
`Exception`s, so `get_snowflake_config`'s `except Exception` catches
them and re-raises `ConfigurationError`. -/

/-- A parsed `.ini` file: named sections of key/value pairs. -/
def IniFile := List (String × List (String × String))

/-- `ConfigParser.get(section, option)`. -/
def cfgGet (ini : IniFile) (sec key : String) : Except String String :=
  match ini.lookup sec with
  | none => .error ("No section: " ++ sec)
  | some kvs =>
      match kvs.lookup key with
      | none => .error ("No option " ++ key ++ " in section: " ++ sec)
      | some v => .ok v

/-- The seven parameters `get_snowflake_config` reads. -/
def requiredSnowflakeKeys : List String :=
  ["user", "password", "account", "warehouse", "database", "schema", "role"]

namespace ConfigManager

/-- `ConfigManager.get_snowflake_config`: builds the dictionary of all
seven parameters from section `snowflake`; the dict display evaluates
every `self.config.get` before the dict exists, so the first absent
section/option aborts the whole construction, and the surrounding
`except` re-raises it as
`ConfigurationError(f"Error reading Snowflake configuration: {str(e)}")`. -/
def get_snowflake_config (ini : IniFile) :
    Except PyExc (List (String × String)) :=
  let attempt : Except String (List (String × String)) :=
    match cfgGet ini "snowflake" "user" with
    | .error e => .error e
    | .ok u =>
      match cfgGet ini "snowflake" "password" with
      | .error e => .error e
      | .ok p =>
        match cfgGet ini "snowflake" "account" with
        | .error e => .error e
        | .ok a =>
          match cfgGet ini "snowflake" "warehouse" with
          | .error e => .error e
          | .ok w =>
            match cfgGet ini "snowflake" "database" with
            | .error e => .error e
            | .ok d =>
              match cfgGet ini "snowflake" "schema" with
              | .error e => .error e
              | .ok sc =>
                match cfgGet ini "snowflake" "role" with
                | .error e => .error e
                | .ok r =>
                    .ok [("user", u), ("password", p), ("account", a),
                         ("warehouse", w), ("database", d), ("schema", sc),
                         ("role", r)]
  match attempt with
  | .ok m => .ok m
  | .error e =>
      .error (.configurationError ("Error reading Snowflake configuration: " ++ e))

end ConfigManager

/-! ## Helper lemmas shared by the claim theorems -/

/-- `SnowflakeConnector.disconnect` always leaves the handle empty. -/
theorem snowflake_disconnect_conn_none (s : SnowflakeState) :
    (SnowflakeConnector.disconnect s).conn = none := by
  rcases s with ⟨c⟩
  cases c <;> rfl

/-- `SharePointConnector.disconnect` always leaves the handle empty. -/
theorem sharepoint_disconnect_ctx_none (t : SPState) :
    (SharePointConnector.disconnect t).ctx = none := by
  rcases t with ⟨c⟩
  cases c <;> rfl

/-- A deterministic echo backend used by concrete witnesses: it answers
any SQL text with a one-cell table containing that text. -/
def echoBackend : Backend :=
  fun sql => .ok { columns := ["sql"], rows := [[sql]] }

/-! ## Claim theorems -/

/-- C9: for both session types, `disconnect` is idempotent and total:
after any call the handle is empty regardless of prior state, a second
call is a no-op, and calling it on a never-connected session (empty
handle) succeeds and leaves the handle empty. -/
theorem disconnect_idempotent_total (s : SnowflakeState) (t : SPState) :
    (SnowflakeConnector.disconnect s).conn = none
    ∧ SnowflakeConnector.disconnect (SnowflakeConnector.disconnect s)
        = SnowflakeConnector.disconnect s
    ∧ SnowflakeConnector.disconnect { conn := none } = { conn := none }
    ∧ (SharePointConnector.disconnect t).ctx = none
    ∧ SharePointConnector.disconnect (SharePointConnector.disconnect t)
        = SharePointConnector.disconnect t
    ∧ SharePointConnector.disconnect { ctx := none } = { ctx := none } := by
  rcases s with ⟨cs⟩
  rcases t with ⟨ct⟩
  cases cs <;> cases ct <;>
    exact ⟨rfl, rfl, rfl, rfl, rfl, rfl⟩

/-- C10: if the driver raises during `SnowflakeConnector.connect`, the
raised exception is a `ConnectionError` wrapping the driver message and
the session state is unchanged — in particular a session that was
Disconnected before the call is still Disconnected after it. -/
theorem connect_failure_preserves_state (e : String) (s : SnowflakeState) :
    SnowflakeConnector.connect (.error e) s
      = (.error (.connectionError ("Failed to connect to Snowflake: " ++ e)), s)
    ∧ (SnowflakeConnector.connect (.error e) { conn := none }).2.conn = none := by
  exact ⟨rfl, rfl⟩

/-- C5: for both session types and for every wrapped operation — one
that raises included — exiting a successfully entered scope leaves the
session Disconnected (handle empty). -/
theorem scoped_exit_disconnects {α β : Type} (h : Nat)
    (opS : SnowflakeState → Except PyExc α × SnowflakeState) (s : SnowflakeState)
    (cfg : SPConfig) (auth : SPAuth)
    (opP : SPState → Except PyExc β × SPState) (t : SPState)
    (hconn : exceptIsOk (SharePointConnector.connect cfg auth t).1 = true) :
    (SnowflakeConnector.withConnector (.ok h) opS s).2.conn = none
    ∧ (SharePointConnector.withConnector cfg auth opP t).2.ctx = none := by
  constructor
  · show (SnowflakeConnector.disconnect (opS { conn := some h }).2).conn = none
    exact snowflake_disconnect_conn_none _
  · rcases hc : SharePointConnector.connect cfg auth t with ⟨r, t'⟩
    rcases r with e | u
    · rw [hc] at hconn
      simp [exceptIsOk] at hconn
    · simp only [SharePointConnector.withConnector, hc]
      exact sharepoint_disconnect_ctx_none _

/-- C5 witness: a concrete scope for each session type whose body
raises, with the SharePoint connect succeeding; both final states have
an empty handle. -/
theorem scoped_exit_disconnects_witness :
    exceptIsOk (SharePointConnector.connect
        { site_url := some "https://contoso.example", username := some "alice",
          password := some "pw" } (.ok 3) { ctx := none }).1 = true
    ∧ ((SnowflakeConnector.withConnector (.ok 7)
          (fun (s : SnowflakeState) =>
            ((.error (.externalError "boom") : Except PyExc Unit), s))
          { conn := none }).2.conn = none
       ∧ (SharePointConnector.withConnector
            { site_url := some "https://contoso.example", username := some "alice",
              password := some "pw" } (.ok 3)
            (fun (t : SPState) => ((.error (.externalError "boom") : Except PyExc Unit), t))
            { ctx := none }).2.ctx = none) :=
  ⟨by decide,
   scoped_exit_disconnects 7 (fun s => ((.error (.externalError "boom") : Except PyExc Unit), s))
     { conn := none }
     { site_url := some "https://contoso.example", username := some "alice",
       password := some "pw" } (.ok 3)
     (fun (t : SPState) => ((.error (.externalError "boom") : Except PyExc Unit), t))
     { ctx := none } (by decide)⟩

/-- C6: on an already-connected session, every failure of the list
retrieval (nonexistent list, network error, rejected request — any
backend error message) makes `get_list_items` return the empty frame
without raising, leaving the session state unchanged. -/
theorem list_records_failure_returns_empty (cfg : SPConfig) (auth : SPAuth)
    (e : String) (fields : Option (List String)) (s : SPState) (h : Nat)
    (hs : s.ctx = some h) :
    (SharePointConnector.get_list_items cfg auth (.error e) fields s).1
      = .ok emptyDataFrame
    ∧ (SharePointConnector.get_list_items cfg auth (.error e) fields s).2 = s := by
  simp [SharePointConnector.get_list_items, SharePointConnector.ensureConnected, hs]

/-- C6 witness: a concrete connected session and a concrete backend
failure; the result is the empty frame and the state is untouched. -/
theorem list_records_failure_returns_empty_witness :
    ({ ctx := some 1 } : SPState).ctx = some 1
    ∧ ((SharePointConnector.get_list_items
          { site_url := some "https://contoso.example", username := some "alice",
            password := some "pw" } (.ok 1)
          (.error "List 'Tasks' does not exist") (some ["Title"])
          { ctx := some 1 }).1 = .ok emptyDataFrame
       ∧ (SharePointConnector.get_list_items
            { site_url := some "https://contoso.example", username := some "alice",
              password := some "pw" } (.ok 1)
            (.error "List 'Tasks' does not exist") (some ["Title"])
            { ctx := some 1 }).2 = { ctx := some 1 }) :=
  ⟨rfl,
   list_records_failure_returns_empty
     { site_url := some "https://contoso.example", username := some "alice",
       password := some "pw" } (.ok 1)
     "List 'Tasks' does not exist" (some ["Title"]) { ctx := some 1 } 1 rfl⟩

/-- Spec-side description of `list_fields`, written from the spec's
words rather than the code: "the display names of exactly those fields
whose internal name does not start with an underscore, in order". -/
def specListFieldDisplayNames (flds : List SPField) : List String :=
  flds.foldr
    (fun f acc => if f.InternalName.startsWith "_" then acc else f.Title :: acc) []

/-- The code's comprehension agrees with the spec-side description. -/
theorem filter_map_eq_specListFieldDisplayNames (flds : List SPField) :
    ((flds.filter (fun f => !f.InternalName.startsWith "_")).map SPField.Title)
      = specListFieldDisplayNames flds := by
  induction flds with
  | nil => rfl
  | cons f rest ih =>
      by_cases hf : f.InternalName.startsWith "_" = true <;>
        simp [specListFieldDisplayNames, List.filter, hf] at ih ⊢ <;>
        simpa [specListFieldDisplayNames] using ih

/-- C8: on a connected session, `get_list_fields` returns exactly the
display names of the fields whose internal name does not start with an
underscore, in order, and returns the empty list (not an error) for the
empty field set. -/
theorem list_fields_excludes_internal (cfg : SPConfig) (auth : SPAuth)
    (flds : List SPField) (s : SPState) (h : Nat)
    (hs : s.ctx = some h) :
    (SharePointConnector.get_list_fields cfg auth (.ok flds) s).1
      = .ok (specListFieldDisplayNames flds)
    ∧ (SharePointConnector.get_list_fields cfg auth (.ok []) s).1 = .ok [] := by
  constructor
  · simp [SharePointConnector.get_list_fields, SharePointConnector.ensureConnected, hs,
      filter_map_eq_specListFieldDisplayNames]
  · simp [SharePointConnector.get_list_fields, SharePointConnector.ensureConnected, hs,
      specListFieldDisplayNames]

/-- C8 witness: a concrete field set with one platform-internal field;
the internal one is dropped, the others keep their order, and the empty
set yields the empty list. -/
theorem list_fields_excludes_internal_witness :
    ({ ctx := some 1 } : SPState).ctx = some 1
    ∧ ((SharePointConnector.get_list_fields
          { site_url := some "https://contoso.example", username := some "alice",
            password := some "pw" } (.ok 1)
          (.ok [{ Title := "Title", InternalName := "Title" },
                { Title := "Modified By", InternalName := "_ModifiedBy" },
                { Title := "Status", InternalName := "Status" }])
          { ctx := some 1 }).1
        = .ok (specListFieldDisplayNames
            [{ Title := "Title", InternalName := "Title" },
             { Title := "Modified By", InternalName := "_ModifiedBy" },
             { Title := "Status", InternalName := "Status" }])
       ∧ (SharePointConnector.get_list_fields
            { site_url := some "https://contoso.example", username := some "alice",
              password := some "pw" } (.ok 1)
            (.ok []) { ctx := some 1 }).1 = .ok []) :=
  ⟨rfl,
   list_fields_excludes_internal
     { site_url := some "https://contoso.example", username := some "alice",
       password := some "pw" } (.ok 1)
     [{ Title := "Title", InternalName := "Title" },
      { Title := "Modified By", InternalName := "_ModifiedBy" },
      { Title := "Status", InternalName := "Status" }]
     { ctx := some 1 } 1 rfl⟩

/-- Shape of `get_snowflake_config`'s result: either it raised a
`ConfigurationError`, or every required key was readable. -/
theorem get_snowflake_config_shape (ini : IniFile) :
    isConfigurationErrorResult (ConfigManager.get_snowflake_config ini) = true
    ∨ ∀ k ∈ requiredSnowflakeKeys, exceptIsOk (cfgGet ini "snowflake" k) = true := by
  cases hu : cfgGet ini "snowflake" "user" <;>
  cases hp : cfgGet ini "snowflake" "password" <;>
  cases ha : cfgGet ini "snowflake" "account" <;>
  cases hw : cfgGet ini "snowflake" "warehouse" <;>
  cases hd : cfgGet ini "snowflake" "database" <;>
  cases hsc : cfgGet ini "snowflake" "schema" <;>
  cases hr : cfgGet ini "snowflake" "role" <;>
  first
    | (left
       simp [ConfigManager.get_snowflake_config, hu, hp, ha, hw, hd, hsc, hr,
         isConfigurationErrorResult]
       done)
    | (right
       intro k hk
       simp only [requiredSnowflakeKeys, List.mem_cons, List.not_mem_nil, or_false] at hk
       rcases hk with rfl | rfl | rfl | rfl | rfl | rfl | rfl <;>
         simp [hu, hp, ha, hw, hd, hsc, hr, exceptIsOk])

/-- C7: `get_snowflake_config` is all-or-nothing: when all seven
required keys are readable it returns the complete mapping of the seven
parameters, and when any required key (or the section) is absent it
raises `ConfigurationError` — never a partial mapping. -/
theorem get_group_complete_or_config_error (ini₁ ini₂ : IniFile)
    (u p a w d sc r : String) (k : String)
    (h1 : cfgGet ini₁ "snowflake" "user" = .ok u)
    (h2 : cfgGet ini₁ "snowflake" "password" = .ok p)
    (h3 : cfgGet ini₁ "snowflake" "account" = .ok a)
    (h4 : cfgGet ini₁ "snowflake" "warehouse" = .ok w)
    (h5 : cfgGet ini₁ "snowflake" "database" = .ok d)
    (h6 : cfgGet ini₁ "snowflake" "schema" = .ok sc)
    (h7 : cfgGet ini₁ "snowflake" "role" = .ok r)
    (hk : k ∈ requiredSnowflakeKeys)
    (hfail : exceptIsOk (cfgGet ini₂ "snowflake" k) = false) :
    ConfigManager.get_snowflake_config ini₁
      = .ok [("user", u), ("password", p), ("account", a), ("warehouse", w),
             ("database", d), ("schema", sc), ("role", r)]
    ∧ isConfigurationErrorResult (ConfigManager.get_snowflake_config ini₂) = true := by
  constructor
  · simp [ConfigManager.get_snowflake_config, h1, h2, h3, h4, h5, h6, h7]
  · rcases get_snowflake_config_shape ini₂ with hc | hall
    · exact hc
    · rw [hall k hk] at hfail
      cases hfail

/-- C7 witness: a complete settings file yields the full seven-key
mapping, and a file whose `snowflake` section lacks `role` raises
`ConfigurationError`. -/
theorem get_group_complete_or_config_error_witness :
    cfgGet [("snowflake",
        [("user", "U"), ("password", "P"), ("account", "A"), ("warehouse", "W"),
         ("database", "D"), ("schema", "S"), ("role", "R")])] "snowflake" "user" = .ok "U"
    ∧ "role" ∈ requiredSnowflakeKeys
    ∧ exceptIsOk (cfgGet [("snowflake", [("user", "U")])] "snowflake" "role") = false
    ∧ (ConfigManager.get_snowflake_config [("snowflake",
        [("user", "U"), ("password", "P"), ("account", "A"), ("warehouse", "W"),
         ("database", "D"), ("schema", "S"), ("role", "R")])]
        = .ok [("user", "U"), ("password", "P"), ("account", "A"), ("warehouse", "W"),
               ("database", "D"), ("schema", "S"), ("role", "R")]
       ∧ isConfigurationErrorResult (ConfigManager.get_snowflake_config
           [("snowflake", [("user", "U")])]) = true) :=
  ⟨rfl, by decide, rfl,
   get_group_complete_or_config_error
     [("snowflake",
        [("user", "U"), ("password", "P"), ("account", "A"), ("warehouse", "W"),
         ("database", "D"), ("schema", "S"), ("role", "R")])]
     [("snowflake", [("user", "U")])]
     "U" "P" "A" "W" "D" "S" "R" "role"
     rfl rfl rfl rfl rfl rfl rfl
     (by decide) rfl⟩

/-- C1: the claim says a settings group with a missing/empty value makes
`SharePointConnector.connect` raise `ConfigurationError`.  The code does
raise `ConfigurationError` inside its `try`, but the enclosing
`except Exception` catches it and re-raises it as `ConnectionError`, so
the exception that reaches the caller is a `ConnectionError` and the two
error kinds ARE interchanged at this input.  (The other half of the
claim behaves as stated: with all three values present, an
authentication failure surfaces as `ConnectionError` wrapping the
platform's error detail.) -/
theorem sharepoint_connect_missing_config_raises_connection_error :
    (SharePointConnector.connect
        { site_url := some "https://contoso.example", username := some "alice",
          password := none } (.ok 1) { ctx := none })
      = (.error (.connectionError
          "Failed to connect to SharePoint: Missing required SharePoint configuration"),
         { ctx := none })
    ∧ isConfigurationErrorResult (SharePointConnector.connect
        { site_url := some "https://contoso.example", username := some "alice",
          password := none } (.ok 1) { ctx := none }).1 = false
    ∧ (SharePointConnector.connect
        { site_url := some "https://contoso.example", username := some "alice",
          password := some "pw" } (.authFailed "invalid credentials") { ctx := none }).1
      = .error (.connectionError
          "Failed to connect to SharePoint: SharePoint authentication failed: invalid credentials") := by
  exact ⟨rfl, rfl, rfl⟩

/-- C2: the claim says a format selector other than `csv`/`excel` makes
`save_dataframe` fail with a plain `ValueError`, never `ConnectionError`.
The code raises the `ValueError` inside its `try`, and the enclosing
`except Exception` re-raises it as `ConnectionError`, so at format
`"json"` (folder lookup and upload both fine, session connected) the
caller sees a `ConnectionError` wrapping the validation message, not a
`ValueError`. -/
theorem save_dataframe_bad_format_raises_connection_error :
    (SharePointConnector.save_dataframe
        { site_url := some "https://contoso.example", username := some "alice",
          password := some "pw" } (.ok 1) (.ok ()) (.ok ()) "json" { ctx := some 1 }).1
      = .error (.connectionError
          "Failed to save DataFrame to SharePoint: file_type must be either 'csv' or 'excel'")
    ∧ isValueErrorResult (SharePointConnector.save_dataframe
        { site_url := some "https://contoso.example", username := some "alice",
          password := some "pw" } (.ok 1) (.ok ()) (.ok ()) "json" { ctx := some 1 }).1
      = false := by
  exact ⟨by decide, by decide⟩

/-- C3 counterexample: the claim says an argument that is not a path to
an existing file is used verbatim as query text and the operation does
not fail for that reason alone.  A `Path` object to a nonexistent file
refutes this: `execute_query` routes every `Path` argument into the
file-read branch, the read fails, and the operation raises (wrapped as
`ConnectionError`) instead of using the argument verbatim. -/
theorem execute_query_missing_path_fails :
    exceptIsOk (SnowflakeConnector.execute_query (.ok 1) [] echoBackend
      (.path "missing.sql") { conn := some 0 }).1 = false := by
  rfl

/-- C3 (amended): on a connected session, a STRING argument denoting an
existing file runs the file's contents, any other string argument runs
verbatim (and does not fail merely for not being a file); a `Path`
argument always reads the file — running its contents when it exists and
raising when it does not. -/
theorem execute_query_resolution (drv : Except String Nat) (fs : FS)
    (backend : Backend) (s : SnowflakeState) (h : Nat)
    (hs : s.conn = some h) (qf qv qm c : String)
    (hqf : fs.lookup qf = some c)
    (hqv : fs.lookup qv = none)
    (hqm : fs.lookup qm = none) :
    (SnowflakeConnector.execute_query drv fs backend (.str qf) s).1
      = SnowflakeConnector.runBackend backend c
    ∧ (SnowflakeConnector.execute_query drv fs backend (.str qv) s).1
      = SnowflakeConnector.runBackend backend qv
    ∧ (SnowflakeConnector.execute_query drv fs backend (.path qf) s).1
      = SnowflakeConnector.runBackend backend c
    ∧ exceptIsOk (SnowflakeConnector.execute_query drv fs backend (.path qm) s).1
      = false := by
  refine ⟨?_, ?_, ?_, ?_⟩ <;>
    simp [SnowflakeConnector.execute_query, SnowflakeConnector.resolveQuery, hs,
      hqf, hqv, hqm, exceptIsOk]

/-- C3 witness: a filesystem with `a.sql` containing `SELECT 1`; the
string `"a.sql"` runs the file contents, the string `"SELECT 2"` runs
verbatim, the path `a.sql` runs the file contents, and the path `b.sql`
(no such file) fails. -/
theorem execute_query_resolution_witness :
    ({ conn := some 0 } : SnowflakeState).conn = some 0
    ∧ ([("a.sql", "SELECT 1")] : FS).lookup "a.sql" = some "SELECT 1"
    ∧ ([("a.sql", "SELECT 1")] : FS).lookup "SELECT 2" = none
    ∧ ([("a.sql", "SELECT 1")] : FS).lookup "b.sql" = none
    ∧ ((SnowflakeConnector.execute_query (.ok 1) [("a.sql", "SELECT 1")] echoBackend
          (.str "a.sql") { conn := some 0 }).1
        = SnowflakeConnector.runBackend echoBackend "SELECT 1"
       ∧ (SnowflakeConnector.execute_query (.ok 1) [("a.sql", "SELECT 1")] echoBackend
            (.str "SELECT 2") { conn := some 0 }).1
          = SnowflakeConnector.runBackend echoBackend "SELECT 2"
       ∧ (SnowflakeConnector.execute_query (.ok 1) [("a.sql", "SELECT 1")] echoBackend
            (.path "a.sql") { conn := some 0 }).1
          = SnowflakeConnector.runBackend echoBackend "SELECT 1"
       ∧ exceptIsOk (SnowflakeConnector.execute_query (.ok 1) [("a.sql", "SELECT 1")]
            echoBackend (.path "b.sql") { conn := some 0 }).1 = false) :=
  ⟨rfl, rfl, rfl, rfl,
   execute_query_resolution (.ok 1) [("a.sql", "SELECT 1")] echoBackend
     { conn := some 0 } 0 rfl "a.sql" "SELECT 2" "b.sql" "SELECT 1" rfl rfl rfl⟩

/-- C4 counterexample: the round trip fails when the query text Q itself
denotes a path to an existing file.  With `b.sql` containing `SELECT 2`,
write Q = `"b.sql"` into the file `a.sql` and compare: passing the file
path `a.sql` runs the text `b.sql`, while passing Q directly reads the
file `b.sql` and runs `SELECT 2` — two different tabular results under
the (deterministic) echo backend. -/
theorem round_trip_fails_when_query_names_a_file :
    (SnowflakeConnector.execute_query (.ok 1)
        [("a.sql", "b.sql"), ("b.sql", "SELECT 2")] echoBackend
        (.str "a.sql") { conn := some 0 }).1
      ≠ (SnowflakeConnector.execute_query (.ok 1)
          [("a.sql", "b.sql"), ("b.sql", "SELECT 2")] echoBackend
          (.str "b.sql") { conn := some 0 }).1 := by
  decide

/-- C4 (amended): on a connected session and a deterministic backend,
writing query text Q to a file F and passing F yields the same tabular
result as passing Q directly, PROVIDED Q does not itself denote a path
to an existing file after the write. -/
theorem round_trip_query_file (drv : Except String Nat) (backend : Backend)
    (fs : FS) (s : SnowflakeState) (h : Nat)
    (hs : s.conn = some h) (Q F : String)
    (hQ : (((F, Q) :: fs) : FS).lookup Q = none) :
    (SnowflakeConnector.execute_query drv ((F, Q) :: fs) backend (.str F) s).1
      = (SnowflakeConnector.execute_query drv ((F, Q) :: fs) backend (.str Q) s).1 := by
  have hF : (((F, Q) :: fs) : FS).lookup F = some Q := by
    simp [List.lookup]
  simp [SnowflakeConnector.execute_query, SnowflakeConnector.resolveQuery, hs, hQ, hF]

/-- C4 witness: Q = `SELECT 1` written to the file `query.sql` on an
otherwise empty filesystem; passing the path and passing the text give
the same result. -/
theorem round_trip_query_file_witness :
    ({ conn := some 0 } : SnowflakeState).conn = some 0
    ∧ ((("query.sql", "SELECT 1") :: ([] : FS)) : FS).lookup "SELECT 1" = none
    ∧ (SnowflakeConnector.execute_query (.ok 1) (("query.sql", "SELECT 1") :: [])
         echoBackend (.str "query.sql") { conn := some 0 }).1
      = (SnowflakeConnector.execute_query (.ok 1) (("query.sql", "SELECT 1") :: [])
          echoBackend (.str "SELECT 1") { conn := some 0 }).1 :=
  ⟨rfl, rfl,
   round_trip_query_file (.ok 1) echoBackend [] { conn := some 0 } 0 rfl
     "SELECT 1" "query.sql" rfl⟩

end Tundra
